import Mathlib

/-!
Shallow embedding of the signal-to-trade pipeline of the binaryauto
repository: the risk/admission engine (`src/trading/risk_manager.py`),
the data model (`src/core/models.py`), the configuration defaults
(`src/config/settings.py`) and the signal parser
(`src/telegram_integration/signal_parser.py`).

Python floats are modelled as exact rationals, Python ints as `Nat`/`Int`,
calendar dates as day indices (`Nat`), and raising code as `Option`
(`none` = the exception propagates to the caller which catches it).
-/

set_option autoImplicit false

namespace Binaryauto

/-- Trade status enum from `src/core/models.py` (`TradeStatus`). -/
inductive TradeStatus where
  | pending
  | active
  | won
  | lost
  | cancelled
  | error
  deriving DecidableEq, Repr

/-- Trade direction enum from `src/core/models.py` (`TradeDirection`). -/
inductive TradeDirection where
  | call
  | put
  deriving DecidableEq, Repr

/-- The configuration fields of `src/config/settings.py` that the risk
manager and the parser read. -/
structure Settings where
  default_trade_amount : ℚ
  max_trade_amount : ℚ
  min_trade_amount : ℚ
  martingale_enabled : Bool
  martingale_multiplier : ℚ
  max_martingale_steps : ℕ
  max_daily_loss : ℚ
  max_concurrent_trades : ℕ
  risk_percentage : ℚ
  min_signal_confidence : ℕ
  allowed_assets : List String
  deriving Repr

/-- The default configuration values of `src/config/settings.py`
(the environment variables unset). -/
def defaultSettings : Settings where
  default_trade_amount := 10
  max_trade_amount := 100
  min_trade_amount := 1
  martingale_enabled := true
  martingale_multiplier := 2
  max_martingale_steps := 3
  max_daily_loss := 500
  max_concurrent_trades := 5
  risk_percentage := 2
  min_signal_confidence := 70
  allowed_assets := ["EURUSD", "GBPUSD", "USDJPY", "AUDUSD", "USDCAD"]

/-- Embeds `RiskMetrics` from `src/core/models.py`.  `last_trade_time` is an
abstract timestamp. -/
structure RiskMetrics where
  daily_loss : ℚ := 0
  daily_profit : ℚ := 0
  concurrent_trades : ℕ := 0
  consecutive_losses : ℕ := 0
  max_consecutive_losses : ℕ := 0
  total_trades_today : ℕ := 0
  last_trade_time : Option ℕ := none
  deriving DecidableEq, Repr

/-- Embeds `RiskMetrics.reset_daily_metrics` from `src/core/models.py`. -/
def reset_daily_metrics (m : RiskMetrics) : RiskMetrics :=
  { m with daily_loss := 0, daily_profit := 0, total_trades_today := 0,
           consecutive_losses := 0 }

/-- Embeds `TradingSession` from `src/core/models.py` (the fields the risk
manager touches; `end_time` is an abstract timestamp and `is_active`
means `end_time = none`). -/
structure TradingSession where
  start_time : ℕ := 0
  end_time : Option ℕ := none
  total_trades : ℕ := 0
  winning_trades : ℕ := 0
  losing_trades : ℕ := 0
  total_profit_loss : ℚ := 0
  balance_start : ℚ := 0
  balance_end : Option ℚ := none
  deriving DecidableEq, Repr

/-- Embeds `TradingSession.is_active` from `src/core/models.py`. -/
def TradingSession.is_active (s : TradingSession) : Bool :=
  s.end_time.isNone

/-- Embeds `MartingaleSequence` from `src/core/models.py`. -/
structure MartingaleSequence where
  original_signal_id : String
  current_step : ℕ := 0
  max_steps : ℕ := 3
  base_amount : ℚ
  current_amount : ℚ
  total_invested : ℚ := 0
  trades : List String := []
  is_complete : Bool := false
  final_result : Option TradeStatus := none
  deriving DecidableEq, Repr

/-- Embeds `MartingaleSequence.next_step` from `src/core/models.py`:
raises (here `none`) when `current_step >= max_steps`, otherwise
advances the step and returns `base_amount * multiplier ^ current_step`. -/
def MartingaleSequence.next_step (s : MartingaleSequence) (multiplier : ℚ) :
    Option (ℚ × MartingaleSequence) :=
  if s.current_step ≥ s.max_steps then
    none
  else
    let step := s.current_step + 1
    let amount := s.base_amount * multiplier ^ step
    some (amount, { s with current_step := step, current_amount := amount })

/-- Embeds `MartingaleSequence.add_trade` from `src/core/models.py`. -/
def MartingaleSequence.add_trade (s : MartingaleSequence)
    (trade_id : String) (amount : ℚ) : MartingaleSequence :=
  { s with trades := s.trades ++ [trade_id],
           total_invested := s.total_invested + amount }

/-- Embeds `MartingaleSequence.complete_sequence` from `src/core/models.py`:
unconditionally sets the completion flag and the final result. -/
def MartingaleSequence.complete_sequence (s : MartingaleSequence)
    (result : TradeStatus) : MartingaleSequence :=
  { s with is_complete := true, final_result := some result }

/-- The fields of `Trade` (`src/core/models.py`) that the risk manager
reads. -/
structure Trade where
  id : String
  signal_id : String
  amount : ℚ
  status : TradeStatus
  profit_loss : Option ℚ := none
  deriving DecidableEq, Repr

/-- The fields of `TradingSignal` (`src/core/models.py`) that the risk
manager reads. -/
structure TradingSignal where
  id : String
  asset : String
  direction : TradeDirection
  amount : ℚ
  duration : ℤ
  deriving DecidableEq, Repr

/-- The mutable state of `RiskManager` (`src/trading/risk_manager.py`).
`last_daily_reset` is a calendar-day index (`datetime.now().date()`),
and the martingale dictionary is an association list keyed by the
original signal id. -/
structure RiskManager where
  risk_metrics : RiskMetrics := {}
  current_session : Option TradingSession := none
  martingale_sequences : List (String × MartingaleSequence) := []
  last_daily_reset : ℕ := 0
  deriving DecidableEq, Repr

/-- Embeds `RiskManager._check_daily_reset` from `src/trading/risk_manager.py`:
when the current date has advanced past the last reset date, zero the
daily metrics and remember the new date. -/
def check_daily_reset (rm : RiskManager) (today : ℕ) : RiskManager :=
  if today > rm.last_daily_reset then
    { rm with risk_metrics := reset_daily_metrics rm.risk_metrics,
              last_daily_reset := today }
  else
    rm

/-- Embeds `RiskManager._is_trading_allowed` from `src/trading/risk_manager.py`. -/
def is_trading_allowed (cfg : Settings) (rm : RiskManager) : Bool :=
  if rm.risk_metrics.consecutive_losses ≥ 10 then false
  else if rm.risk_metrics.daily_loss ≥ cfg.max_daily_loss then false
  else true

/-- Embeds `RiskManager._is_market_hours` from `src/trading/risk_manager.py`:
weekday 0 = Monday; Saturday (5) and Sunday (6) are excluded. -/
def is_market_hours (weekday : ℕ) : Bool :=
  decide (weekday < 5)

/-- Embeds `RiskManager.can_place_trade` from `src/trading/risk_manager.py`:
the ordered, short-circuiting admission checks.  `today` is the current
calendar-day index and `weekday` the current day of the week; the daily
reset performed at the top mutates the manager, so the updated manager
is returned alongside the verdict. -/
def can_place_trade (cfg : Settings) (rm : RiskManager)
    (signal : TradingSignal) (current_balance : ℚ)
    (today weekday : ℕ) : (Bool × String) × RiskManager :=
  let rm := check_daily_reset rm today
  if ¬ is_trading_allowed cfg rm then
    ((false, "Trading is currently disabled"), rm)
  else if rm.risk_metrics.concurrent_trades ≥ cfg.max_concurrent_trades then
    ((false, "Maximum concurrent trades limit reached"), rm)
  else if rm.risk_metrics.daily_loss ≥ cfg.max_daily_loss then
    ((false, "Daily loss limit reached"), rm)
  else if current_balance < signal.amount * 2 then
    ((false, "Insufficient balance"), rm)
  else if signal.amount > current_balance * cfg.risk_percentage / 100 then
    ((false, "Trade amount exceeds risk limit"), rm)
  else if rm.risk_metrics.consecutive_losses ≥ 5 then
    ((false, "Too many consecutive losses. Trading paused for safety."), rm)
  else if ¬ is_market_hours weekday then
    ((false, "Outside of allowed trading hours"), rm)
  else
    ((true, "Trade approved"), rm)

/-- Embeds `RiskManager.calculate_position_size` from
`src/trading/risk_manager.py`, as a function of the consecutive-loss
counter, the signal amount and the balance. -/
def calculate_position_size (cfg : Settings) (consecutive_losses : ℕ)
    (signal_amount current_balance : ℚ) : ℚ :=
  let base_amount := signal_amount
  let max_risk_amount := current_balance * cfg.risk_percentage / 100
  let min_amount := cfg.min_trade_amount
  let max_amount := min cfg.max_trade_amount max_risk_amount
  let base_amount :=
    if consecutive_losses > 0 then
      base_amount * (9 / 10 : ℚ) ^ consecutive_losses
    else
      base_amount
  max min_amount (min base_amount max_amount)

/-- Embeds `RiskManager.get_next_martingale_amount` from
`src/trading/risk_manager.py`.  The `Option` argument models
`self.martingale_sequences.get(id)`; a `ValueError` from `next_step` is
caught and turned into `None`.  The (possibly mutated) sequence is
returned alongside the result. -/
def get_next_martingale_amount (seq : Option MartingaleSequence)
    (multiplier current_balance : ℚ) :
    Option ℚ × Option MartingaleSequence :=
  match seq with
  | none => (none, none)
  | some s =>
    match s.next_step multiplier with
    | none => (none, some s)
    | some (next_amount, s) =>
      if next_amount > current_balance * (1 / 2 : ℚ) then
        (none, some s)
      else
        (some next_amount, some s)

/-- The loop of `RiskManager._update_martingale_sequences` from
`src/trading/risk_manager.py`: the first sequence containing the trade
id is updated (and the loop breaks). -/
def updateSeqList :
    List (String × MartingaleSequence) → Trade →
    List (String × MartingaleSequence)
  | [], _ => []
  | (k, s) :: rest, trade =>
    if trade.id ∈ s.trades then
      let s := s.add_trade trade.id trade.amount
      let s :=
        if trade.status = TradeStatus.won then
          s.complete_sequence TradeStatus.won
        else if trade.status = TradeStatus.lost ∧
            s.current_step ≥ s.max_steps then
          s.complete_sequence TradeStatus.lost
        else
          s
      (k, s) :: rest
    else
      (k, s) :: updateSeqList rest trade

/-- Embeds `RiskManager.record_trade_result` from `src/trading/risk_manager.py`:
session counters and risk metrics are updated only when a session is
active; then the martingale sequences are updated and the last-trade
timestamp is set.  No daily-reset check is performed here. -/
def record_trade_result (rm : RiskManager) (trade : Trade) (now : ℕ) :
    RiskManager :=
  let rm :=
    match rm.current_session with
    | none => rm
    | some sess =>
      let sess := { sess with total_trades := sess.total_trades + 1 }
      if trade.status = TradeStatus.won then
        { rm with
          current_session := some
            { sess with
              winning_trades := sess.winning_trades + 1,
              total_profit_loss :=
                sess.total_profit_loss + trade.profit_loss.getD 0 },
          risk_metrics :=
            { rm.risk_metrics with
              daily_profit :=
                rm.risk_metrics.daily_profit + trade.profit_loss.getD 0,
              consecutive_losses := 0 } }
      else if trade.status = TradeStatus.lost then
        { rm with
          current_session := some
            { sess with
              losing_trades := sess.losing_trades + 1,
              total_profit_loss := sess.total_profit_loss - trade.amount },
          risk_metrics :=
            { rm.risk_metrics with
              daily_loss := rm.risk_metrics.daily_loss + trade.amount,
              consecutive_losses := rm.risk_metrics.consecutive_losses + 1,
              max_consecutive_losses :=
                max rm.risk_metrics.max_consecutive_losses
                  (rm.risk_metrics.consecutive_losses + 1) } }
      else
        { rm with current_session := some sess }
  let rm :=
    { rm with martingale_sequences := updateSeqList rm.martingale_sequences trade }
  { rm with risk_metrics := { rm.risk_metrics with last_trade_time := some now } }

/-- Embeds `RiskManager.end_session` from `src/trading/risk_manager.py` with no
final balance argument: stamps the end time. -/
def end_session (rm : RiskManager) (now : ℕ) : RiskManager :=
  match rm.current_session with
  | none => rm
  | some sess => { rm with current_session := some { sess with end_time := some now } }

/-- Embeds `RiskManager.force_stop_trading` from `src/trading/risk_manager.py`:
completes every incomplete martingale sequence as cancelled, ends an
active session, and sets the consecutive-loss counter to the sentinel
999. -/
def force_stop_trading (rm : RiskManager) (now : ℕ) : RiskManager :=
  let rm :=
    { rm with
      martingale_sequences :=
        rm.martingale_sequences.map fun (p : String × MartingaleSequence) =>
          if ¬ p.2.is_complete then
            (p.1, p.2.complete_sequence TradeStatus.cancelled)
          else
            p }
  let rm :=
    match rm.current_session with
    | some sess => if sess.is_active then end_session rm now else rm
    | none => rm
  { rm with risk_metrics := { rm.risk_metrics with consecutive_losses := 999 } }

/-- Value of a decimal digit character. -/
def digitVal (c : Char) : ℕ := c.toNat - 48

/-- Numeric value of a list of decimal digit characters. -/
def digitsToNat (cs : List Char) : ℕ :=
  cs.foldl (fun n c => 10 * n + digitVal c) 0

/-- Embeds `TelegramSignalParser._parse_duration` from
`src/telegram_integration/signal_parser.py`: empty input defaults to 300;
otherwise the uppercased string is filtered to the characters 0-9, M, H,
matched against leading digits and an optional unit letter, and the unit
defaults to M (minutes) when the letter is absent. -/
def parse_duration (s : String) : Option ℕ :=
  if s = "" then some 300
  else
    let cs := (s.data.map Char.toUpper).filter fun c =>
      c.isDigit || c = 'M' || c = 'H'
    let digits := cs.takeWhile Char.isDigit
    if digits = [] then none
    else
      let number := digitsToNat digits
      let unitHit : Option Char :=
        match cs.drop digits.length with
        | c :: _ => if c = 'M' ∨ c = 'H' then some c else none
        | [] => none
      let unit := unitHit.getD 'M'
      if unit = 'M' then some (number * 60)
      else if unit = 'H' then some (number * 3600)
      else if number > 60 then some number
      else some (number * 60)

/-- Whether `needle` is a leading segment of `hay` (`str.startswith`). -/
def leadsList : List Char → List Char → Bool
  | [], _ => true
  | _ :: _, [] => false
  | a :: as, b :: bs => a == b && leadsList as bs

/-- Python's `needle in hay` substring test on character lists. -/
def isSubstr (needle : List Char) : List Char → Bool
  | [] => leadsList needle []
  | c :: cs => leadsList needle (c :: cs) || isSubstr needle cs

/-- The `call` keyword list of `SIGNAL_KEYWORDS` in
`src/config/settings.py`. -/
def callKeywords : List String :=
  ["call", "buy", "up", "higher", "bullish", "📈", "🟢", "⬆️"]

/-- The `put` keyword list of `SIGNAL_KEYWORDS` in
`src/config/settings.py`. -/
def putKeywords : List String :=
  ["put", "sell", "down", "lower", "bearish", "📉", "🔴", "⬇️"]

/-- One keyword test of `_parse_keyword_signal`: the uppercased keyword
occurs in the uppercased text, or the keyword occurs verbatim. -/
def keywordHits (orig upper : List Char) (k : String) : Bool :=
  isSubstr (k.data.map Char.toUpper) upper || isSubstr k.data orig

/-- The direction loop of `_parse_keyword_signal`: the `call` keyword
list is scanned before the `put` list, first hit wins. -/
def findKeywordDirection (orig upper : List Char) : Option TradeDirection :=
  if callKeywords.any (keywordHits orig upper) then some TradeDirection.call
  else if putKeywords.any (keywordHits orig upper) then some TradeDirection.put
  else none

/-- Scanner state for extracting the numeric tokens that
`re.findall(r'\d+(?:\.\d+)?', text)` yields. -/
inductive NumScan where
  | outside
  | inInt (n : ℕ)
  | afterDot (n : ℕ)
  | inFrac (n : ℕ) (f : ℕ) (scale : ℕ)
  deriving DecidableEq, Repr

/-- The numeric value a scanner state would emit, if any. -/
def NumScan.emit : NumScan → Option ℚ
  | NumScan.outside => none
  | NumScan.inInt n => some n
  | NumScan.afterDot n => some n
  | NumScan.inFrac n f scale => some ((n : ℚ) + (f : ℚ) / (10 : ℚ) ^ scale)

/-- One character step of the numeric-token scanner. -/
def numStep (st : List ℚ × NumScan) (c : Char) : List ℚ × NumScan :=
  match st.2 with
  | NumScan.outside =>
    if c.isDigit then (st.1, NumScan.inInt (digitVal c)) else (st.1, NumScan.outside)
  | NumScan.inInt n =>
    if c.isDigit then (st.1, NumScan.inInt (10 * n + digitVal c))
    else if c = '.' then (st.1, NumScan.afterDot n)
    else (st.1 ++ [(n : ℚ)], NumScan.outside)
  | NumScan.afterDot n =>
    if c.isDigit then (st.1, NumScan.inFrac n (digitVal c) 1)
    else (st.1 ++ [(n : ℚ)], NumScan.outside)
  | NumScan.inFrac n f scale =>
    if c.isDigit then (st.1, NumScan.inFrac n (10 * f + digitVal c) (scale + 1))
    else
      let v := (n : ℚ) + (f : ℚ) / (10 : ℚ) ^ scale
      (st.1 ++ [v], NumScan.outside)

/-- The effect of `re.findall(r'\d+(?:\.\d+)?', text)` as rational values: scan the
characters and flush the pending token at the end. -/
def findNumbers (cs : List Char) : List ℚ :=
  let st := cs.foldl numStep ([], NumScan.outside)
  match st.2.emit with
  | some v => st.1 ++ [v]
  | none => st.1

/-- One iteration of the number-classification loop of
`_parse_keyword_signal` (`src/telegram_integration/signal_parser.py`),
acting on the (amount, duration) pair.  `int()` on the non-negative
values produced by the regex is floor. -/
def classifyStep (ad : ℚ × ℤ) (num : ℚ) : ℚ × ℤ :=
  if 1 ≤ num ∧ num ≤ 1000 then (num, ad.2)
  else if 60 ≤ num ∧ num ≤ 3600 then (ad.1, ⌊num⌋)
  else if 1 ≤ num ∧ num ≤ 60 then (ad.1, ⌊num * 60⌋)
  else ad

/-- The signal that `_parse_keyword_signal` builds. -/
structure KeywordSignal where
  asset : String
  direction : TradeDirection
  amount : ℚ
  duration : ℤ
  deriving DecidableEq, Repr

/-- Embeds `TelegramSignalParser._parse_keyword_signal` from
`src/telegram_integration/signal_parser.py`: locate an allow-listed
asset substring and a direction keyword, classify the numeric tokens by
range, then clamp the amount into the configured bounds. -/
def parse_keyword_signal (cfg : Settings) (msg : String) : Option KeywordSignal :=
  let orig := msg.data
  let upper := orig.map Char.toUpper
  match cfg.allowed_assets.find? fun a => isSubstr a.data upper with
  | none => none
  | some asset =>
    match findKeywordDirection orig upper with
    | none => none
    | some direction =>
      let numbers := findNumbers orig
      let ad := numbers.foldl classifyStep (cfg.default_trade_amount, 300)
      let amount := max cfg.min_trade_amount (min ad.1 cfg.max_trade_amount)
      some { asset := asset, direction := direction,
             amount := amount, duration := ad.2 }

/-! Helper definitions and lemmas shared by the claim theorems. -/

/-- A concrete valid signal used for witnesses. -/
def sampleSignal : TradingSignal where
  id := "sig-1"
  asset := "EURUSD"
  direction := TradeDirection.call
  amount := 10
  duration := 300

/-- The guarded step the callers of `MartingaleSequence.next_step`
perform: the `ValueError` is caught and leaves the sequence unchanged. -/
def martingaleStepCaught (s : MartingaleSequence) (multiplier : ℚ) :
    MartingaleSequence :=
  match s.next_step multiplier with
  | none => s
  | some (_, s') => s'

/-- A whole history of `next_step` calls (each exception caught). -/
def run_next_steps (s : MartingaleSequence) (ms : List ℚ) : MartingaleSequence :=
  ms.foldl martingaleStepCaught s

theorem martingaleStepCaught_invariant (s : MartingaleSequence) (m : ℚ)
    (h : s.current_step ≤ s.max_steps) :
    (martingaleStepCaught s m).current_step ≤ (martingaleStepCaught s m).max_steps := by
  unfold martingaleStepCaught MartingaleSequence.next_step
  by_cases hge : s.current_step ≥ s.max_steps
  · simp only [hge, if_true]
    exact h
  · simp only [hge, if_false]
    omega

/-- Claim C3: a `MartingaleSequence`'s `current_step` never exceeds
`max_steps`: `next_step` refuses (raises) whenever the step has already
reached `max_steps`, and along any sequence of `next_step` calls the
invariant `current_step ≤ max_steps` is preserved. -/
theorem C3_step_ceiling_invariant :
    (∀ (s : MartingaleSequence) (m : ℚ),
      s.current_step ≥ s.max_steps → s.next_step m = none) ∧
    (∀ (s : MartingaleSequence) (ms : List ℚ),
      s.current_step ≤ s.max_steps →
      (run_next_steps s ms).current_step ≤ (run_next_steps s ms).max_steps) := by
  constructor
  · intro s m h
    unfold MartingaleSequence.next_step
    simp [h]
  · intro s ms
    induction ms generalizing s with
    | nil => intro h; exact h
    | cons m rest ih =>
      intro h
      exact ih (martingaleStepCaught s m) (martingaleStepCaught_invariant s m h)

/-- Witness for C3 at a concrete sequence and five escalation attempts. -/
theorem C3_step_ceiling_invariant_witness :
    (run_next_steps { original_signal_id := "orig", base_amount := 10,
                      current_amount := 10 } [2, 2, 2, 2, 2]).current_step ≤
      (run_next_steps { original_signal_id := "orig", base_amount := 10,
                        current_amount := 10 } [2, 2, 2, 2, 2]).max_steps :=
  C3_step_ceiling_invariant.2
    { original_signal_id := "orig", base_amount := 10, current_amount := 10 }
    [2, 2, 2, 2, 2] (by decide)

/-- A concrete sequence used by the C8 counterexample. -/
def seqC8 : MartingaleSequence where
  original_signal_id := "orig"
  base_amount := 10
  current_amount := 10

/-- Claim C8 counterexample: re-closing a completed sequence is not a
no-op — closing with `won` and then again with `lost` leaves the final
result `lost`, not the first closure's `won`. -/
theorem C8_counterexample :
    ((seqC8.complete_sequence TradeStatus.won).complete_sequence
        TradeStatus.lost).final_result = some TradeStatus.lost ∧
      some TradeStatus.lost ≠ some TradeStatus.won := by
  constructor
  · rfl
  · decide

/-- Claim C8 as amended: `complete_sequence` unconditionally sets the
completion flag and overwrites `final_result` with its argument, so the
flag is stable under re-closing but the final result takes the value of
the last closure, not the first. -/
theorem C8_complete_sequence_overwrites :
    ∀ (s : MartingaleSequence) (r : TradeStatus),
      (s.complete_sequence r).is_complete = true ∧
      (s.complete_sequence r).final_result = some r := by
  intro s r
  exact ⟨rfl, rfl⟩

/-- Claim C7: evaluation of `_parse_duration` at the failing input.  A
bare number above 60 is multiplied by 60 (the unit defaults to minutes),
not returned as already-seconds: the already-seconds branch in the
source is unreachable.  The explicit-unit cases behave as claimed. -/
theorem C7_parse_duration_behavior :
    parse_duration "120" = some 7200 ∧
    parse_duration "5M" = some 300 ∧
    parse_duration "2H" = some 7200 ∧
    (7200 : ℕ) ≠ 120 := by
  refine ⟨rfl, rfl, rfl, by decide⟩

theorem check_daily_reset_skip (rm : RiskManager) (today : ℕ)
    (h : today ≤ rm.last_daily_reset) :
    check_daily_reset rm today = rm := by
  unfold check_daily_reset
  rw [if_neg]
  omega

theorem check_daily_reset_concurrent (rm : RiskManager) (today : ℕ) :
    (check_daily_reset rm today).risk_metrics.concurrent_trades =
      rm.risk_metrics.concurrent_trades := by
  unfold check_daily_reset reset_daily_metrics
  split <;> rfl

theorem force_stop_last_daily_reset (rm : RiskManager) (now : ℕ) :
    (force_stop_trading rm now).last_daily_reset = rm.last_daily_reset := by
  unfold force_stop_trading end_session
  cases h : rm.current_session with
  | none => rfl
  | some sess =>
    by_cases ha : sess.is_active <;> simp [h, ha]

theorem force_stop_consecutive (rm : RiskManager) (now : ℕ) :
    (force_stop_trading rm now).risk_metrics.consecutive_losses = 999 := by
  unfold force_stop_trading end_session
  cases h : rm.current_session with
  | none => rfl
  | some sess =>
    by_cases ha : sess.is_active <;> simp [h, ha]

theorem is_trading_allowed_false_of_streak (cfg : Settings) (rm : RiskManager)
    (h : rm.risk_metrics.consecutive_losses ≥ 10) :
    is_trading_allowed cfg rm = false := by
  unfold is_trading_allowed
  rw [if_pos h]

/-- Claim C1 counterexample: starting from the initial risk state,
`force_stop_trading` is followed by an admitted trade once the calendar
day advances — the daily reset zeroes the consecutive-loss sentinel, so
the kill switch does not survive a day boundary without any external
reset. -/
theorem C1_counterexample :
    (can_place_trade defaultSettings (force_stop_trading {} 0)
        sampleSignal 1000 1 0).1.1 = true := by
  norm_num [can_place_trade, check_daily_reset, reset_daily_metrics,
    is_trading_allowed, is_market_hours, force_stop_trading, end_session,
    sampleSignal, defaultSettings]

/-- Claim C1 as amended: after `force_stop_trading`, every
`can_place_trade` call made before the calendar day advances past the
last daily-reset date returns false; a day boundary triggers the daily
reset, which zeroes the consecutive-loss counter and can re-admit
trades. -/
theorem C1_force_stop_same_day (cfg : Settings) (rm : RiskManager)
    (t : ℕ) (signal : TradingSignal) (balance : ℚ) (today weekday : ℕ)
    (h : today ≤ rm.last_daily_reset) :
    (can_place_trade cfg (force_stop_trading rm t) signal balance
        today weekday).1.1 = false := by
  have hld : today ≤ (force_stop_trading rm t).last_daily_reset := by
    rw [force_stop_last_daily_reset]; exact h
  have hallow : is_trading_allowed cfg (force_stop_trading rm t) = false :=
    is_trading_allowed_false_of_streak cfg _ (by rw [force_stop_consecutive]; omega)
  unfold can_place_trade
  rw [check_daily_reset_skip _ _ hld]
  simp [hallow]

/-- Witness for C1: a concrete same-day call after a forced stop is
denied. -/
theorem C1_force_stop_same_day_witness :
    (can_place_trade defaultSettings (force_stop_trading {} 0)
        sampleSignal 1000 0 0).1.1 = false :=
  C1_force_stop_same_day defaultSettings {} 0 sampleSignal 1000 0 0 (by decide)

/-- Claim C5: `can_place_trade` never approves a trade while the
concurrent-trade count has reached the configured maximum. -/
theorem C5_concurrent_limit (cfg : Settings) (rm : RiskManager)
    (signal : TradingSignal) (balance : ℚ) (today weekday : ℕ)
    (h : rm.risk_metrics.concurrent_trades ≥ cfg.max_concurrent_trades) :
    (can_place_trade cfg rm signal balance today weekday).1.1 = false := by
  have hc := check_daily_reset_concurrent rm today
  simp only [can_place_trade]
  split_ifs with h1 h2 h3 h4 h5 h6 h7 <;> try rfl
  rw [hc] at h2
  exact absurd h h2

/-- Witness for C5: with five concurrent trades and the default limit of
five, a concrete admission call is denied. -/
theorem C5_concurrent_limit_witness :
    (can_place_trade defaultSettings
        { risk_metrics := { concurrent_trades := 5 } }
        sampleSignal 1000 0 0).1.1 = false :=
  C5_concurrent_limit defaultSettings
    { risk_metrics := { concurrent_trades := 5 } }
    sampleSignal 1000 0 0 (by decide)

theorem position_size_closed_form (cfg : Settings) (n : ℕ)
    (signal_amount current_balance : ℚ) :
    calculate_position_size cfg n signal_amount current_balance =
      max cfg.min_trade_amount
        (min (signal_amount * (9 / 10 : ℚ) ^ n)
          (min cfg.max_trade_amount
            (current_balance * cfg.risk_percentage / 100))) := by
  unfold calculate_position_size
  by_cases hn : n > 0
  · simp [hn]
  · have h0 : n = 0 := by omega
    simp [h0]

/-- Claim C6: for a fixed signal amount (non-negative, as every
validated signal amount is) and a fixed balance, the computed position
size is monotonically non-increasing in the consecutive-loss counter. -/
theorem C6_size_damping_monotone (cfg : Settings)
    (signal_amount current_balance : ℚ) (n m : ℕ)
    (hamt : 0 ≤ signal_amount) (hnm : n ≤ m) :
    calculate_position_size cfg m signal_amount current_balance ≤
      calculate_position_size cfg n signal_amount current_balance := by
  rw [position_size_closed_form, position_size_closed_form]
  have hpow : (9 / 10 : ℚ) ^ m ≤ (9 / 10 : ℚ) ^ n :=
    pow_le_pow_of_le_one (by norm_num) (by norm_num) hnm
  have hmul : signal_amount * (9 / 10 : ℚ) ^ m ≤
      signal_amount * (9 / 10 : ℚ) ^ n :=
    mul_le_mul_of_nonneg_left hpow hamt
  exact max_le_max (le_refl _) (min_le_min hmul (le_refl _))

/-- Witness for C6: at the default configuration, the size after two
consecutive losses is at most the size after one. -/
theorem C6_size_damping_monotone_witness :
    calculate_position_size defaultSettings 2 10 1000 ≤
      calculate_position_size defaultSettings 1 10 1000 :=
  C6_size_damping_monotone defaultSettings 10 1000 1 2 (by norm_num) (by norm_num)

/-- A risk-manager state with accumulated daily figures and an active
session, used by the C2 claim. -/
def rmC2 : RiskManager where
  risk_metrics :=
    { daily_loss := 5, daily_profit := 1, consecutive_losses := 2,
      max_consecutive_losses := 2 }
  current_session := some {}
  martingale_sequences := []
  last_daily_reset := 0

/-- A concrete won trade with profit 7. -/
def wonTrade : Trade where
  id := "t1"
  signal_id := "sig-1"
  amount := 10
  status := TradeStatus.won
  profit_loss := some 7

/-- Claim C2 counterexample: recording an outcome performs no
calendar-day boundary check.  With the last reset on day 0 and a win
recorded later, the daily loss accumulator keeps its stale value 5 and
the reset date stays 0 — the claimed zeroing before recording never
happens (`record_trade_result` never consults the date). -/
theorem C2_counterexample :
    (record_trade_result rmC2 wonTrade 1).risk_metrics.daily_loss = 5 ∧
    (record_trade_result rmC2 wonTrade 1).last_daily_reset = 0 ∧
    (5 : ℚ) ≠ 0 := by
  refine ⟨rfl, rfl, by norm_num⟩

/-- Claim C2 as amended: when a session is active,
`record_trade_result` updates the accumulators as specified — a win adds
the profit to the daily profit accumulator and zeroes the
consecutive-loss counter, a loss adds the stake to the daily loss
accumulator, increments the counter and updates its historical maximum —
but it performs no calendar-day boundary check: the daily accumulators
and the reset date are carried over unchanged (the reset happens only in
the admission path). -/
theorem C2_record_outcome_no_reset (rm : RiskManager) (trade : Trade)
    (now : ℕ) (sess : TradingSession)
    (hs : rm.current_session = some sess) :
    (trade.status = TradeStatus.won →
      (record_trade_result rm trade now).risk_metrics.daily_profit =
          rm.risk_metrics.daily_profit + trade.profit_loss.getD 0 ∧
      (record_trade_result rm trade now).risk_metrics.consecutive_losses = 0 ∧
      (record_trade_result rm trade now).risk_metrics.daily_loss =
          rm.risk_metrics.daily_loss ∧
      (record_trade_result rm trade now).risk_metrics.max_consecutive_losses =
          rm.risk_metrics.max_consecutive_losses ∧
      (record_trade_result rm trade now).last_daily_reset =
          rm.last_daily_reset) ∧
    (trade.status = TradeStatus.lost →
      (record_trade_result rm trade now).risk_metrics.daily_loss =
          rm.risk_metrics.daily_loss + trade.amount ∧
      (record_trade_result rm trade now).risk_metrics.consecutive_losses =
          rm.risk_metrics.consecutive_losses + 1 ∧
      (record_trade_result rm trade now).risk_metrics.max_consecutive_losses =
          max rm.risk_metrics.max_consecutive_losses
            (rm.risk_metrics.consecutive_losses + 1) ∧
      (record_trade_result rm trade now).risk_metrics.daily_profit =
          rm.risk_metrics.daily_profit ∧
      (record_trade_result rm trade now).last_daily_reset =
          rm.last_daily_reset) := by
  constructor
  · intro hw
    simp [record_trade_result, hs, hw]
  · intro hl
    simp [record_trade_result, hs, hl]

/-- Witness for C2: the amended win behavior at a concrete state. -/
theorem C2_record_outcome_no_reset_witness :
    (record_trade_result rmC2 wonTrade 1).risk_metrics.daily_profit =
        rmC2.risk_metrics.daily_profit + wonTrade.profit_loss.getD 0 ∧
    (record_trade_result rmC2 wonTrade 1).risk_metrics.consecutive_losses = 0 ∧
    (record_trade_result rmC2 wonTrade 1).risk_metrics.daily_loss =
        rmC2.risk_metrics.daily_loss ∧
    (record_trade_result rmC2 wonTrade 1).risk_metrics.max_consecutive_losses =
        rmC2.risk_metrics.max_consecutive_losses ∧
    (record_trade_result rmC2 wonTrade 1).last_daily_reset =
        rmC2.last_daily_reset :=
  (C2_record_outcome_no_reset rmC2 wonTrade 1 {} rfl).1 rfl

theorem updateSeqList_eq_of_not_mem
    (l : List (String × MartingaleSequence)) (trade : Trade)
    (h : ∀ p ∈ l, trade.id ∉ p.2.trades) :
    updateSeqList l trade = l := by
  induction l with
  | nil => rfl
  | cons p rest ih =>
    cases p with
    | mk k s =>
      have hhead : trade.id ∉ s.trades := h (k, s) (List.mem_cons_self _ _)
      have htail : ∀ q ∈ rest, trade.id ∉ q.2.trades := by
        intro q hq
        exact h q (List.mem_cons_of_mem _ hq)
      simp only [updateSeqList, if_neg hhead]
      rw [ih htail]

/-- A concrete cancelled trade used by the C10 witness. -/
def cancelledTrade : Trade where
  id := "t2"
  signal_id := "sig-1"
  amount := 10
  status := TradeStatus.cancelled
  profit_loss := none

/-- Claim C10: recording a cancelled or errored trade leaves the daily
loss and profit accumulators, the consecutive-loss counter, its
historical maximum, the concurrent-trade count, the martingale
sequences and the reset date unchanged; only the session's total trade
count and the last-trade timestamp are updated.  (The hypothesis that
the trade id lies in no sequence's trade list holds in every reachable
state: trade lists only grow inside a branch that already requires
membership, so they stay empty.) -/
theorem C10_frame_cancelled_error (rm : RiskManager) (trade : Trade)
    (now : ℕ)
    (hst : trade.status = TradeStatus.cancelled ∨
      trade.status = TradeStatus.error)
    (hseq : ∀ p ∈ rm.martingale_sequences, trade.id ∉ p.2.trades) :
    (record_trade_result rm trade now).risk_metrics.daily_loss =
        rm.risk_metrics.daily_loss ∧
    (record_trade_result rm trade now).risk_metrics.daily_profit =
        rm.risk_metrics.daily_profit ∧
    (record_trade_result rm trade now).risk_metrics.consecutive_losses =
        rm.risk_metrics.consecutive_losses ∧
    (record_trade_result rm trade now).risk_metrics.max_consecutive_losses =
        rm.risk_metrics.max_consecutive_losses ∧
    (record_trade_result rm trade now).risk_metrics.concurrent_trades =
        rm.risk_metrics.concurrent_trades ∧
    (record_trade_result rm trade now).risk_metrics.last_trade_time =
        some now ∧
    (record_trade_result rm trade now).martingale_sequences =
        rm.martingale_sequences ∧
    (record_trade_result rm trade now).last_daily_reset =
        rm.last_daily_reset ∧
    (record_trade_result rm trade now).current_session =
        rm.current_session.map
          (fun sess => { sess with total_trades := sess.total_trades + 1 }) := by
  have hw : ¬ trade.status = TradeStatus.won := by
    rcases hst with h | h <;> simp [h]
  have hl : ¬ trade.status = TradeStatus.lost := by
    rcases hst with h | h <;> simp [h]
  have hu := updateSeqList_eq_of_not_mem rm.martingale_sequences trade hseq
  cases hcs : rm.current_session with
  | none => simp [record_trade_result, hcs, hw, hl, hu]
  | some sess => simp [record_trade_result, hcs, hw, hl, hu]

/-- Witness for C10: a concrete cancelled trade recorded against a
state with accumulated figures changes nothing but the session counter
and the timestamp. -/
theorem C10_frame_cancelled_error_witness :
    (record_trade_result rmC2 cancelledTrade 1).risk_metrics.daily_loss =
        rmC2.risk_metrics.daily_loss ∧
    (record_trade_result rmC2 cancelledTrade 1).risk_metrics.daily_profit =
        rmC2.risk_metrics.daily_profit ∧
    (record_trade_result rmC2 cancelledTrade 1).risk_metrics.consecutive_losses =
        rmC2.risk_metrics.consecutive_losses ∧
    (record_trade_result rmC2 cancelledTrade 1).risk_metrics.max_consecutive_losses =
        rmC2.risk_metrics.max_consecutive_losses ∧
    (record_trade_result rmC2 cancelledTrade 1).risk_metrics.concurrent_trades =
        rmC2.risk_metrics.concurrent_trades ∧
    (record_trade_result rmC2 cancelledTrade 1).risk_metrics.last_trade_time =
        some 1 ∧
    (record_trade_result rmC2 cancelledTrade 1).martingale_sequences =
        rmC2.martingale_sequences ∧
    (record_trade_result rmC2 cancelledTrade 1).last_daily_reset =
        rmC2.last_daily_reset ∧
    (record_trade_result rmC2 cancelledTrade 1).current_session =
        rmC2.current_session.map
          (fun sess => { sess with total_trades := sess.total_trades + 1 }) :=
  C10_frame_cancelled_error rmC2 cancelledTrade 1 (Or.inl rfl)
    (by intro p hp; simp [rmC2] at hp)

/-- The recovery sequence of claim C4: base amount 10, the default
maximum of 3 steps, step counter at 0. -/
def seqC4 : MartingaleSequence where
  original_signal_id := "orig"
  base_amount := 10
  current_amount := 10

/-- State of `seqC4` after the first escalation. -/
def seqC4a : MartingaleSequence := { seqC4 with current_step := 1, current_amount := 20 }

/-- State of `seqC4` after the second escalation. -/
def seqC4b : MartingaleSequence := { seqC4 with current_step := 2, current_amount := 40 }

/-- State of `seqC4` after the third escalation. -/
def seqC4c : MartingaleSequence := { seqC4 with current_step := 3, current_amount := 80 }

theorem seqC4_step1 : seqC4.next_step 2 = some (20, seqC4a) := by
  simp [MartingaleSequence.next_step, seqC4, seqC4a]
  norm_num

theorem seqC4_step2 : seqC4a.next_step 2 = some (40, seqC4b) := by
  simp [MartingaleSequence.next_step, seqC4, seqC4a, seqC4b]
  norm_num

theorem seqC4_step3 : seqC4b.next_step 2 = some (80, seqC4c) := by
  simp [MartingaleSequence.next_step, seqC4, seqC4b, seqC4c]
  norm_num

theorem seqC4_step4 : seqC4c.next_step 2 = none := by
  simp [MartingaleSequence.next_step, seqC4, seqC4c]

/-- Claim C4: with base amount 10, multiplier 2 and max 3 steps, under a
balance so large that the half-balance bound never binds, successive
`get_next_martingale_amount` calls yield 20 (step 1), 40 (step 2), 80
(step 3), and refuse on the fourth call, which would exceed the step
ceiling; and in general the result is `none` whenever the computed
amount exceeds half the current balance. -/
theorem C4_martingale_amounts :
    (∀ b : ℚ, 160 ≤ b →
      get_next_martingale_amount (some seqC4) 2 b = (some 20, some seqC4a) ∧
      get_next_martingale_amount (some seqC4a) 2 b = (some 40, some seqC4b) ∧
      get_next_martingale_amount (some seqC4b) 2 b = (some 80, some seqC4c) ∧
      get_next_martingale_amount (some seqC4c) 2 b = (none, some seqC4c)) ∧
    (∀ (s : MartingaleSequence) (mult b amt : ℚ) (s' : MartingaleSequence),
      s.next_step mult = some (amt, s') → amt > b * (1 / 2 : ℚ) →
      (get_next_martingale_amount (some s) mult b).1 = none) := by
  constructor
  · intro b hb
    refine ⟨?_, ?_, ?_, ?_⟩
    · simp only [get_next_martingale_amount, seqC4_step1]
      rw [if_neg (by linarith : ¬ (20 : ℚ) > b * (1 / 2 : ℚ))]
    · simp only [get_next_martingale_amount, seqC4_step2]
      rw [if_neg (by linarith : ¬ (40 : ℚ) > b * (1 / 2 : ℚ))]
    · simp only [get_next_martingale_amount, seqC4_step3]
      rw [if_neg (by linarith : ¬ (80 : ℚ) > b * (1 / 2 : ℚ))]
    · simp only [get_next_martingale_amount, seqC4_step4]
  · intro s mult b amt s' h hgt
    simp only [get_next_martingale_amount, h]
    rw [if_pos hgt]

/-- Witness for C4 at the concrete balance 1000. -/
theorem C4_martingale_amounts_witness :
    get_next_martingale_amount (some seqC4) 2 1000 = (some 20, some seqC4a) ∧
    get_next_martingale_amount (some seqC4a) 2 1000 = (some 40, some seqC4b) ∧
    get_next_martingale_amount (some seqC4b) 2 1000 = (some 80, some seqC4c) ∧
    get_next_martingale_amount (some seqC4c) 2 1000 = (none, some seqC4c) :=
  C4_martingale_amounts.1 1000 (by norm_num)

/-- Claim C9 counterexample: the message `EURUSD UP 3` carries an
allow-listed asset, a direction keyword and the single numeric token 3,
yet the parsed duration is the 300-second default rather than
3 × 60 = 180 — the token became the amount instead. -/
theorem C9_counterexample :
    parse_keyword_signal defaultSettings "EURUSD UP 3" =
      some { asset := "EURUSD", direction := TradeDirection.call,
             amount := 3, duration := 300 } ∧
    (300 : ℤ) ≠ 3 * 60 := by
  exact ⟨rfl, by decide⟩

/-- Claim C9 as amended: the keyword-fallback classifier assigns a
numeric token in [1, 1000] to the amount and a token in (1000, 3600] to
the duration in seconds; the duration-in-minutes branch for tokens in
[1, 60] is unreachable because the amount range subsumes it, so an input
with a single numeric token between 1 and 60 keeps the default duration
of 300 seconds and uses the token as the amount. -/
theorem C9_numeric_classification :
    (∀ (ad : ℚ × ℤ) (n : ℚ), 1 ≤ n → n ≤ 1000 →
      classifyStep ad n = (n, ad.2)) ∧
    (∀ (ad : ℚ × ℤ) (n : ℚ), 1000 < n → n ≤ 3600 →
      classifyStep ad n = (ad.1, ⌊n⌋)) ∧
    parse_keyword_signal defaultSettings "EURUSD UP 3" =
      some { asset := "EURUSD", direction := TradeDirection.call,
             amount := 3, duration := 300 } := by
  refine ⟨?_, ?_, rfl⟩
  · intro ad n h1 h2
    unfold classifyStep
    rw [if_pos ⟨h1, h2⟩]
  · intro ad n h1 h2
    unfold classifyStep
    rw [if_neg (by push_neg; intro _; linarith), if_pos ⟨by linarith, h2⟩]

/-- Witness for C9: the token 3 (within 1–60) is classified as the
amount, leaving the duration untouched. -/
theorem C9_numeric_classification_witness :
    classifyStep ((10 : ℚ), (300 : ℤ)) 3 = (3, 300) :=
  C9_numeric_classification.1 ((10 : ℚ), (300 : ℤ)) 3 (by norm_num) (by norm_num)

end Binaryauto
